import Mathlib

/-!
Verification of the structural properties of the notebook
`answers/05 Model Architectures-ANSWER_KEY.ipynb`.

The notebook wires configuration values into the Neon framework: a
Gaussian weight initializer, activation configurations, two branch-node
markers, three layer paths, a tree of paths with per-leaf loss weights,
a multi-cost aggregate, an optimizer, callbacks and a fit call.  We embed
those configuration values as Lean data and prove the declared structural
invariants about them.  Framework behaviour that the notebook relies on
but does not implement (shape resolution during `model.initialize`) is
modelled from the specification where a claim needs it.
-/

namespace NeonNotebook

/-- Configuration of `neon.initializers.Gaussian`: a normal distribution
with mean `loc` and standard deviation `scale`. -/
structure Gaussian where
  loc : ℚ
  scale : ℚ
deriving DecidableEq, Repr

/-- Activation-function configurations from `neon.transforms` used by the
notebook. -/
inductive Activation
  | Rectlin
  | Logistic (shortcut : Bool)
  | Softmax
deriving DecidableEq, Repr

/-- A reusable keyword dictionary for `Affine` layers: a weight
initializer together with an activation (the notebook's `dict(init=...,
activation=...)` pattern). -/
structure LayerConfig where
  init : Gaussian
  activation : Activation
deriving DecidableEq, Repr

/-- One element of a path: either a `BranchNode` marker (identified by its
name) or an `Affine` layer descriptor with its output width, name and
configuration dictionary. -/
inductive PathElem
  | branch (name : String)
  | affine (nout : Nat) (name : String) (cfg : LayerConfig)
deriving DecidableEq, Repr

/-- `init_norm = Gaussian(loc=0.0, scale=0.01)`; the scale 0.01 = 1/100 is
written as a rational in normal form so that it is kernel-computable. -/
def init_norm : Gaussian := ⟨0, ⟨1, 100, by decide, by decide⟩⟩

/-- `normrelu = dict(init=init_norm, activation=Rectlin())`. -/
def normrelu : LayerConfig := ⟨init_norm, .Rectlin⟩

/-- `normsigm = dict(init=init_norm, activation=Logistic(shortcut=True))`. -/
def normsigm : LayerConfig := ⟨init_norm, .Logistic true⟩

/-- `normsoft = dict(init=init_norm, activation=Softmax())`. -/
def normsoft : LayerConfig := ⟨init_norm, .Softmax⟩

/-- `b1 = BranchNode(name="b1")`. -/
def b1 : PathElem := .branch "b1"

/-- `b2 = BranchNode(name="b2")`. -/
def b2 : PathElem := .branch "b2"

/-- The main trunk `p1` of the notebook's topology. -/
def p1 : List PathElem :=
  [.affine 100 "m_l1" normrelu,
   b1,
   .affine 32 "m_l2" normrelu,
   .affine 16 "m_l3" normrelu,
   b2,
   .affine 10 "m_l4" normsoft]

/-- The first branch path `p2` (leading to cost2). -/
def p2 : List PathElem :=
  [b1,
   .affine 16 "b1_l1" normrelu,
   .affine 10 "b1_l2" normsoft]

/-- The second branch path `p3` (leading to cost3). -/
def p3 : List PathElem :=
  [b2,
   .affine 16 "b2_l1" normrelu,
   .affine 10 "b2_l2" normsoft]

/-- `alphas = [1, 0.25, 0.25]`: the per-leaf loss weights; 0.25 = 1/4 is
written as a rational in normal form so that it is kernel-computable. -/
def alphas : List ℚ :=
  [1, ⟨1, 4, by decide, by decide⟩, ⟨1, 4, by decide, by decide⟩]

/-- The argument structure of `neon.layers.SingleOutputTree`: the list of
paths plus the per-leaf weighting coefficients. -/
structure SingleOutputTree where
  paths : List (List PathElem)
  alphas : List ℚ
deriving DecidableEq, Repr

/-- `SingleOutputTree([p1, p2, p3], alphas=alphas)` as declared in the
notebook. -/
def treeLayers : SingleOutputTree := ⟨[p1, p2, p3], alphas⟩

/-- The argument structure of `neon.models.Model` as used here: its layer
container. -/
structure Model where
  layers : SingleOutputTree
deriving DecidableEq, Repr

/-- `model = Model(layers=SingleOutputTree([p1, p2, p3], alphas=alphas))`. -/
def model : Model := ⟨treeLayers⟩

/-- The cost functions from `neon.transforms` imported by the notebook. -/
inductive CostFunc
  | CrossEntropyBinary
  | CrossEntropyMulti
  | Misclassification
deriving DecidableEq, Repr

/-- `neon.layers.GeneralizedCost`: wraps one cost function. -/
structure GeneralizedCost where
  costfunc : CostFunc
deriving DecidableEq, Repr

/-- `neon.layers.Multicost`: an ordered collection of per-leaf costs. -/
structure Multicost where
  costs : List GeneralizedCost
deriving DecidableEq, Repr

/-- `cost = Multicost(costs=[GeneralizedCost(costfunc=CrossEntropyMulti()), ...])`
with three identical entries. -/
def cost : Multicost :=
  ⟨[⟨.CrossEntropyMulti⟩, ⟨.CrossEntropyMulti⟩, ⟨.CrossEntropyMulti⟩]⟩

/-- Modelled from the spec: `load_mnist` (external framework) supplies the
MNIST dataset, which has 10 target classes; `nclass = 10`. -/
def mnistNclass : Nat := 10

/-- Modelled from the spec: MNIST images are 28 by 28 pixels, flattened to
784-wide input vectors fed to the first trunk layer. -/
def mnistInputWidth : Nat := 784

/-- The configuration of `neon.data.ArrayIterator` as used by the
notebook: which arrays it wraps and the class count. -/
structure ArrayIterator where
  X : String
  y : String
  nclass : Nat
deriving DecidableEq, Repr

/-- `train_set = ArrayIterator(X_train, y_train, nclass=nclass)`. -/
def train_set : ArrayIterator := ⟨"X_train", "y_train", mnistNclass⟩

/-- `valid_set = ArrayIterator(X_test, y_test, nclass=nclass)`. -/
def valid_set : ArrayIterator := ⟨"X_test", "y_test", mnistNclass⟩

/-- The configuration of `neon.optimizers.GradientDescentMomentum`. -/
structure GradientDescentMomentum where
  learning_rate : ℚ
  momentum_coef : ℚ
deriving DecidableEq, Repr

/-- `optimizer = GradientDescentMomentum(0.1, momentum_coef=0.9)`; the
rationals 0.1 = 1/10 and 0.9 = 9/10 are written in normal form so that
they are kernel-computable. -/
def optimizer : GradientDescentMomentum :=
  ⟨⟨1, 10, by decide, by decide⟩, ⟨9, 10, by decide, by decide⟩⟩

/-- The configuration of `neon.callbacks.Callbacks` as used here: the
held-out evaluation set and the evaluation frequency. -/
structure Callbacks where
  eval_set : ArrayIterator
  eval_freq : Nat
deriving DecidableEq, Repr

/-- `callbacks = Callbacks(model, eval_set=valid_set, eval_freq=1)`. -/
def callbacks : Callbacks := ⟨valid_set, 1⟩

/-- The arguments passed to `model.fit` in the notebook's last code cell. -/
structure FitCall where
  dataset : ArrayIterator
  optimizer : GradientDescentMomentum
  num_epochs : Nat
  cost : Multicost
  callbacks : Callbacks
deriving DecidableEq, Repr

/-- `model.fit(train_set, optimizer=optimizer, num_epochs=10, cost=cost,
callbacks=callbacks)`. -/
def fitCall : FitCall := ⟨train_set, optimizer, 10, cost, callbacks⟩

/-- Is this path element a branch-node marker? -/
def PathElem.isBranch : PathElem → Bool
  | .branch _ => true
  | .affine _ _ _ => false

/-- The output widths of the `Affine` layers of a path, in order. -/
def affineNouts (p : List PathElem) : List Nat :=
  p.filterMap fun e =>
    match e with
    | .affine n _ _ => some n
    | .branch _ => none

/-- Modelled from the spec: the shape propagation that the external
framework performs along one path during `model.initialize`.  An `Affine`
layer accepts any input width and emits `nout`; a branch-node marker seen
with a recorded width resumes at that width, and a marker seen for the
first time records the width flowing into it at that point.  Returns the
updated marker-width table and the width flowing out of the path's last
element. -/
def resolvePath (widths : List (String × Nat)) (cur : Nat) :
    List PathElem → List (String × Nat) × Nat
  | [] => (widths, cur)
  | .affine n _ _ :: rest => resolvePath widths n rest
  | .branch nm :: rest =>
      match widths.lookup nm with
      | some w => resolvePath widths w rest
      | none => resolvePath ((nm, cur) :: widths) cur rest

/-- Modelled from the spec: shape propagation for the non-trunk paths.
Each path after the first must begin with a branch marker whose width was
already recorded (it diverges from the trunk at that marker); referencing
a marker that was never assigned a width is a shape error (`none`).
Returns the list of terminal output widths of the branch paths. -/
def resolveBranches (widths : List (String × Nat)) :
    List (List PathElem) → Option (List Nat)
  | [] => some []
  | path :: rest =>
      match path with
      | .branch nm :: tail =>
          match widths.lookup nm with
          | some w =>
              let res := resolvePath widths w tail
              match resolveBranches res.1 rest with
              | some outs => some (res.2 :: outs)
              | none => none
          | none => none
      | _ => none

/-- Modelled from the spec: shape resolution for a whole tree of paths,
as performed by the external framework's `model.initialize`.  The trunk
path starts from the dataset's input width; every later path resumes at
its leading branch marker.  Returns the terminal output width of each
path (leaf) in declaration order, or `none` on a shape error. -/
def resolveShapes (inputWidth : Nat) (paths : List (List PathElem)) :
    Option (List Nat) :=
  match paths with
  | [] => some []
  | trunk :: branches =>
      let res := resolvePath [] inputWidth trunk
      match resolveBranches res.1 branches with
      | some outs => some (res.2 :: outs)
      | none => none

/-- Modelled from the spec: `model.initialize(train_set, cost)` succeeds
exactly when shape resolution succeeds, every leaf's terminal width
matches the iterator's target class count, and there is one cost per
leaf. -/
def initializeOk (it : ArrayIterator) (m : Model) (c : Multicost) : Bool :=
  match resolveShapes mnistInputWidth m.layers.paths with
  | some outs => outs.all (fun w => w == it.nclass) && (outs.length == c.costs.length)
  | none => false

/-- One Python statement of the notebook's code cells, at the granularity
relevant to error flow: an assignment whose right-hand side invokes the
named framework callee, a bare expression statement invoking the named
callee, or a try/except block.  The notebook's cells contain no other
statement forms. -/
inductive Stmt
  | assign (lhs fname : String)
  | callStmt (fname : String)
  | tryExcept (body handler : List Stmt)

/-- Does this statement catch exceptions? -/
def Stmt.isTry : Stmt → Bool
  | .tryExcept _ _ => true
  | .assign _ _ => false
  | .callStmt _ => false

/-- The framework callee a non-try statement invokes. -/
def Stmt.callee : Stmt → Option String
  | .assign _ f => some f
  | .callStmt f => some f
  | .tryExcept _ _ => none

/-- The frozen list of statements of the notebook's code cells, in cell
order: backend and data setup, topology assembly, cost composition,
initialization, and training. -/
def notebookStmts : List Stmt :=
  [.assign "be" "gen_backend",
   .assign "X_train,y_train,X_test,y_test,nclass" "load_mnist",
   .assign "train_set" "ArrayIterator",
   .assign "valid_set" "ArrayIterator",
   .assign "init_norm" "Gaussian",
   .assign "normrelu" "dict",
   .assign "normsigm" "dict",
   .assign "normsoft" "dict",
   .assign "b1" "BranchNode",
   .assign "b2" "BranchNode",
   .assign "p1" "list",
   .assign "p2" "list",
   .assign "p3" "list",
   .assign "alphas" "list",
   .assign "model" "Model",
   .assign "cost" "Multicost",
   .callStmt "model.initialize",
   .callStmt "print",
   .assign "optimizer" "GradientDescentMomentum",
   .assign "callbacks" "Callbacks",
   .callStmt "model.fit"]

mutual

/-- Execute one statement under an oracle `raises` telling which framework
callees raise which exception: a raised exception aborts the statement
with that error, a try/except block runs its handler on an error in its
body. -/
def execStmt (raises : String → Option String) : Stmt → Except String Unit
  | .assign _ f =>
      match raises f with
      | some e => .error e
      | none => .ok ()
  | .callStmt f =>
      match raises f with
      | some e => .error e
      | none => .ok ()
  | .tryExcept body handler =>
      match execStmts raises body with
      | .ok () => .ok ()
      | .error _ => execStmts raises handler

/-- Execute a list of statements in order, stopping at the first error. -/
def execStmts (raises : String → Option String) : List Stmt → Except String Unit
  | [] => .ok ()
  | s :: rest =>
      match execStmt raises s with
      | .ok () => execStmts raises rest
      | .error e => .error e

end

/-- The framework callees a statement list invokes at the top level. -/
def progCalls (prog : List Stmt) : List String :=
  prog.filterMap Stmt.callee

theorem execStmts_ok_iff (raises : String → Option String) (prog : List Stmt)
    (h : prog.all (fun s => ! s.isTry) = true) :
    execStmts raises prog = .ok () ↔
      (progCalls prog).all (fun f => (raises f).isNone) = true := by
  induction prog with
  | nil => simp [execStmts, progCalls]
  | cons s rest ih =>
      simp only [List.all_cons, Bool.and_eq_true, Bool.not_eq_true'] at h
      obtain ⟨hs, hrest⟩ := h
      have ih2 := ih hrest
      cases s with
      | assign lhs f =>
          simp only [execStmts, execStmt, progCalls, List.filterMap_cons,
            Stmt.callee, List.all_cons, Bool.and_eq_true]
          cases hr : raises f with
          | none => simpa [hr, progCalls] using ih2
          | some e => simp [hr]
      | callStmt f =>
          simp only [execStmts, execStmt, progCalls, List.filterMap_cons,
            Stmt.callee, List.all_cons, Bool.and_eq_true]
          cases hr : raises f with
          | none => simpa [hr, progCalls] using ih2
          | some e => simp [hr]
      | tryExcept body handler => simp [Stmt.isTry] at hs

theorem execStmts_error (raises : String → Option String) (prog : List Stmt)
    (h : prog.all (fun s => ! s.isTry) = true) (e : String)
    (he : execStmts raises prog = .error e) :
    ∃ f ∈ progCalls prog, raises f = some e := by
  induction prog with
  | nil => simp [execStmts] at he
  | cons s rest ih =>
      simp only [List.all_cons, Bool.and_eq_true, Bool.not_eq_true'] at h
      obtain ⟨hs, hrest⟩ := h
      cases s with
      | assign lhs f =>
          simp only [execStmts, execStmt] at he
          cases hr : raises f with
          | none =>
              rw [hr] at he
              simp only [] at he
              obtain ⟨g, hg, hge⟩ := ih hrest he
              exact ⟨g, by
                simp only [progCalls, List.filterMap_cons, Stmt.callee]
                exact List.mem_cons_of_mem f hg, hge⟩
          | some e2 =>
              rw [hr] at he
              simp only [] at he
              have he2 : e2 = e := by
                cases he
                rfl
              subst he2
              exact ⟨f, by simp [progCalls, List.filterMap_cons, Stmt.callee], hr⟩
      | callStmt f =>
          simp only [execStmts, execStmt] at he
          cases hr : raises f with
          | none =>
              rw [hr] at he
              simp only [] at he
              obtain ⟨g, hg, hge⟩ := ih hrest he
              exact ⟨g, by
                simp only [progCalls, List.filterMap_cons, Stmt.callee]
                exact List.mem_cons_of_mem f hg, hge⟩
          | some e2 =>
              rw [hr] at he
              simp only [] at he
              have he2 : e2 = e := by
                cases he
                rfl
              subst he2
              exact ⟨f, by simp [progCalls, List.filterMap_cons, Stmt.callee], hr⟩
      | tryExcept body handler => simp [Stmt.isTry] at hs

theorem rat_mk_eq_div (n : ℤ) (d : ℕ) (h1 : d ≠ 0)
    (h2 : n.natAbs.Coprime d) :
    (⟨n, d, h1, h2⟩ : ℚ) = (n : ℚ) / (d : ℚ) :=
  (Rat.num_div_den (⟨n, d, h1, h2⟩ : ℚ)).symm

/-- C1: the number of leaf-terminal paths supplied to the tree builder
(`SingleOutputTree`), the number of per-leaf cost functions supplied to
the cost aggregate (`Multicost`), and the number of leaf-weight
coefficients (`alphas`) are all equal, each being 3; moreover every
supplied path is leaf-terminal (it ends in an `Affine` layer). -/
theorem leaf_counts_agree :
    treeLayers.paths.length = 3 ∧
    cost.costs.length = 3 ∧
    treeLayers.alphas.length = 3 ∧
    treeLayers.paths.length = cost.costs.length ∧
    cost.costs.length = treeLayers.alphas.length ∧
    (treeLayers.paths.all fun p =>
      match p.getLast? with
      | some (.affine _ _ _) => true
      | _ => false) = true := by
  decide

/-- C2: for MNIST with 10 classes, the topology has trunk `Affine` widths
100, 32, 16, 10 and two branch heads of widths 16 then 10; initialization
with the training iterator succeeds without shape errors (under the
spec-modelled shape resolution), and the model has exactly three terminal
layers, each configured to emit exactly 10 output units, equal to the
target class count. -/
theorem initialize_succeeds :
    initializeOk train_set model cost = true ∧
    resolveShapes mnistInputWidth model.layers.paths = some [10, 10, 10] ∧
    model.layers.paths.length = 3 ∧
    affineNouts p1 = [100, 32, 16, 10] ∧
    affineNouts p2 = [16, 10] ∧
    affineNouts p3 = [16, 10] ∧
    p1.getLast? = some (.affine 10 "m_l4" normsoft) ∧
    p2.getLast? = some (.affine 10 "b1_l2" normsoft) ∧
    p3.getLast? = some (.affine 10 "b2_l2" normsoft) ∧
    mnistNclass = 10 ∧
    train_set.nclass = mnistNclass := by
  decide

/-- C3: each of the two branch markers is referenced by exactly two
paths, each branch path lists its marker as its first element, and in the
trunk the marker appears strictly before the layers that consume its
output (`b1` before `m_l2`, `b2` before `m_l4`). -/
theorem branch_marker_ordering :
    (treeLayers.paths.filter (fun p => p.contains b1)).length = 2 ∧
    (treeLayers.paths.filter (fun p => p.contains b2)).length = 2 ∧
    p2.head? = some b1 ∧
    p3.head? = some b2 ∧
    p1.indexOf b1 = 1 ∧
    p1.indexOf (.affine 32 "m_l2" normrelu) = 2 ∧
    p1.indexOf b2 = 4 ∧
    p1.indexOf (.affine 10 "m_l4" normsoft) = 5 ∧
    p1.indexOf b1 < p1.indexOf (.affine 32 "m_l2" normrelu) ∧
    p1.indexOf b2 < p1.indexOf (.affine 10 "m_l4" normsoft) := by
  decide

/-- C4: the paths are declared trunk-first: the tree builder receives
`[p1, p2, p3]` with the trunk `p1` first (it begins with a layer fed by
the input, and it contains every branch marker any path references), and
each later leaf path begins with the branch marker at which it diverges
from the trunk. -/
theorem trunk_first_declaration :
    treeLayers.paths = [p1, p2, p3] ∧
    treeLayers.paths.head? = some p1 ∧
    p1.head? = some (.affine 100 "m_l1" normrelu) ∧
    p2.head? = some b1 ∧
    b1 ∈ p1 ∧
    p3.head? = some b2 ∧
    b2 ∈ p1 ∧
    (treeLayers.paths.all fun p => p.all fun e =>
      ! e.isBranch || p1.contains e) = true := by
  decide

/-- C5: the leaf-weight coefficients are the constants `[1, 0.25, 0.25]`
(written `1/4` here), one per leaf path, and each is nonnegative. -/
theorem alphas_nonnegative :
    alphas = [1, 1/4, 1/4] ∧
    treeLayers.alphas = alphas ∧
    alphas.length = treeLayers.paths.length ∧
    (alphas.all fun a => decide (0 ≤ a)) = true := by
  refine ⟨?_, by decide, by decide, by decide⟩
  have h : (⟨1, 4, by decide, by decide⟩ : ℚ) = 1/4 := by
    rw [rat_mk_eq_div]
    norm_num
  simp [alphas, h]

/-- C6: no statement of the notebook's code cells catches exceptions
(there is no try/except anywhere), so under the trace semantics every
run succeeds exactly when no framework callee raises, and whenever a
framework callee raises, its exception propagates unhandled as the
result of executing the notebook. -/
theorem errors_propagate_unhandled :
    (notebookStmts.all fun s => ! s.isTry) = true ∧
    (∀ raises : String → Option String,
      (execStmts raises notebookStmts = .ok () ↔
        (progCalls notebookStmts).all (fun f => (raises f).isNone) = true)) ∧
    (∀ raises : String → Option String, ∀ e : String,
      execStmts raises notebookStmts = .error e →
        ∃ f ∈ progCalls notebookStmts, raises f = some e) := by
  refine ⟨by decide, ?_, ?_⟩
  · intro raises
    exact execStmts_ok_iff raises notebookStmts (by decide)
  · intro raises e he
    exact execStmts_error raises notebookStmts (by decide) e he

/-- C7: training is configured for `num_epochs = 10` with
`GradientDescentMomentum` at learning rate 0.1 and momentum coefficient
0.9, evaluating every epoch (`eval_freq = 1`) on the validation iterator
built from the test split (distinct from the training iterator), and the
`model.fit` call is a bare expression statement whose return value is
never assigned. -/
theorem training_configuration :
    fitCall.num_epochs = 10 ∧
    fitCall.optimizer = optimizer ∧
    optimizer.learning_rate = 1/10 ∧
    optimizer.momentum_coef = 9/10 ∧
    fitCall.callbacks = callbacks ∧
    callbacks.eval_freq = 1 ∧
    callbacks.eval_set = valid_set ∧
    valid_set.X = "X_test" ∧
    train_set.X = "X_train" ∧
    valid_set ≠ train_set ∧
    fitCall.dataset = train_set ∧
    fitCall.cost = cost ∧
    (notebookStmts.any fun s =>
      match s with
      | .callStmt f => f == "model.fit"
      | _ => false) = true ∧
    (notebookStmts.all fun s =>
      match s with
      | .assign _ f => ! (f == "model.fit")
      | _ => true) = true := by
  refine ⟨by decide, by decide, ?_, ?_, by decide, by decide, by decide,
    by decide, by decide, by decide, by decide, by decide, by decide, by decide⟩
  · show (⟨1, 10, by decide, by decide⟩ : ℚ) = 1/10
    rw [rat_mk_eq_div]
    norm_num
  · show (⟨9, 10, by decide, by decide⟩ : ℚ) = 9/10
    rw [rat_mk_eq_div]
    norm_num

/-- C8: every non-terminal `Affine` layer of every path uses the Rectlin
activation, every terminal (leaf) layer uses the Softmax activation, and
the Logistic configuration record `normsigm`, though defined, is used by
no layer of the model. -/
theorem activations_pattern :
    (treeLayers.paths.all fun p => p.dropLast.all fun e =>
      match e with
      | .affine _ _ cfg => cfg.activation == .Rectlin
      | .branch _ => true) = true ∧
    (treeLayers.paths.all fun p =>
      match p.getLast? with
      | some (.affine _ _ cfg) => cfg.activation == .Softmax
      | _ => false) = true ∧
    normsigm = ⟨init_norm, .Logistic true⟩ ∧
    (treeLayers.paths.all fun p => p.all fun e =>
      match e with
      | .affine _ _ cfg => ! (cfg == normsigm)
      | .branch _ => true) = true ∧
    (treeLayers.paths.all fun p => p.all fun e =>
      match e with
      | .affine _ _ cfg =>
          match cfg.activation with
          | .Logistic _ => false
          | _ => true
      | .branch _ => true) = true := by
  decide

/-- C9: one Gaussian initializer with `loc = 0.0` and `scale = 0.01`
(`init_norm`) is the initializer of every configuration record, and every
`Affine` layer of every path shares it. -/
theorem shared_initializer :
    init_norm = ⟨0, 1/100⟩ ∧
    normrelu.init = init_norm ∧
    normsigm.init = init_norm ∧
    normsoft.init = init_norm ∧
    (treeLayers.paths.all fun p => p.all fun e =>
      match e with
      | .affine _ _ cfg => cfg.init == init_norm
      | .branch _ => true) = true := by
  refine ⟨?_, by decide, by decide, by decide, by decide⟩
  have h : (⟨1, 100, by decide, by decide⟩ : ℚ) = 1/100 := by
    rw [rat_mk_eq_div]
    norm_num
  show Gaussian.mk 0 (⟨1, 100, by decide, by decide⟩ : ℚ) = Gaussian.mk 0 (1/100)
  rw [h]

/-- C10: each branch marker is shared by exactly the trunk and one branch
path (`b1` by `p1` and `p2`, `b2` by `p1` and `p3`), no marker appears in
two branch paths, no path contains the same marker twice, and all three
per-leaf costs are `GeneralizedCost` wrapping `CrossEntropyMulti`. -/
theorem branch_sharing_and_costs :
    treeLayers.paths.filter (fun p => p.contains b1) = [p1, p2] ∧
    treeLayers.paths.filter (fun p => p.contains b2) = [p1, p3] ∧
    b1 ∉ p3 ∧
    b2 ∉ p2 ∧
    (treeLayers.paths.all fun p =>
      decide (p.count b1 ≤ 1) && decide (p.count b2 ≤ 1)) = true ∧
    cost.costs = [⟨.CrossEntropyMulti⟩, ⟨.CrossEntropyMulti⟩, ⟨.CrossEntropyMulti⟩] := by
  decide

end NeonNotebook
